import Mathlib

/-!
# Verification of the massalabs/blockifier core against its specification

Shallow embedding of the fee-accounting pipeline (`src/crates/blockifier/src/fee/fee_utils.rs`),
the contract-class model (`src/crates/blockifier/src/execution/contract_class.rs`) and the
call-tree traversal, together with proofs settling the frozen claims.

Conventions of the embedding:
* Rust machine integers become `Nat` with explicit bounds (`U128MAX`, `U64SIZE`) where
  overflow matters.
* A Rust panic (`expect`, `unwrap`, arithmetic overflow of a non-checked operator) is
  modelled as the `none` case of an `Option` wrapped around the function's result.
* Hash maps / index maps become association lists; lookups take the first matching key,
  which coincides with map semantics on the unique-key mappings the code maintains.
  `IndexMap`'s `PartialEq` (and hence `ResourcesMapping`'s) compares key-value content,
  not insertion order, so mapping equality is expressed through `RMlookup`.
-/

set_option autoImplicit false

/-- `FixedU128::DIV` from `sp_arithmetic`: the fixed point has 18 decimal places. -/
def FDIV : Nat := 1000000000000000000

/-- Largest value of a `u128`. -/
def U128MAX : Nat := 340282366920938463463374607431768211455

/-- Number of values of a `u64` (the value type of `ResourcesMapping`). -/
def U64SIZE : Nat := 18446744073709551616

/-- `sp_arithmetic::fixed_point::FixedU128`: an unsigned fixed-point number stored as its
inner `u128` value scaled by `FDIV`.  The operations below keep `inner ≤ U128MAX`. -/
structure FixedU128 where
  inner : Nat
  deriving DecidableEq, Repr

/-- `FixedU128::checked_from_integer`: multiplies by `DIV` with a `u128` overflow check. -/
def FixedU128.checked_from_integer (n : Nat) : Option FixedU128 :=
  if n * FDIV ≤ U128MAX then some ⟨n * FDIV⟩ else none

/-- `FixedU128::zero()`. -/
def FixedU128.zero : FixedU128 := ⟨0⟩

/-- The checked multiplication underlying `ops::Mul for FixedU128`
(`multiply_by_rational_with_rounding(a, b, DIV, ...)`), truncating the scaled product and
returning `none` when the result does not fit in a `u128`.  Every multiplication the fee
pipeline performs is exact (one factor is an integer times `DIV`), so the rounding mode
of the remainder is immaterial here. -/
def FixedU128.mulChecked (a b : FixedU128) : Option FixedU128 :=
  if a.inner * b.inner / FDIV ≤ U128MAX then some ⟨a.inner * b.inner / FDIV⟩ else none

/-- `Ord::max` on `FixedU128` (compares inner values). -/
def FixedU128.fmax (a b : FixedU128) : FixedU128 := ⟨max a.inner b.inner⟩

/-- `ops::Add for FixedU128` adds the inner `u128` values; overflow is a panic
(modelled as `none`). -/
def FixedU128.addChecked (a b : FixedU128) : Option FixedU128 :=
  if a.inner + b.inner ≤ U128MAX then some ⟨a.inner + b.inner⟩ else none

/-- `FixedPointNumber::ceil` on a (non-negative) `FixedU128`: the identity on integral
values, otherwise `self.saturating_add(One::one()).trunc()` — note the saturation, which
clamps at `U128MAX` before truncating. -/
def FixedU128.ceil (a : FixedU128) : FixedU128 :=
  if a.inner % FDIV = 0 then a else ⟨min (a.inner + FDIV) U128MAX / FDIV * FDIV⟩

/-- `FixedPointNumber::saturating_mul_int` specialised to a `u128` argument:
`⌊inner · n / DIV⌋`, saturating at `u128::MAX`. -/
def FixedU128.saturating_mul_int (a : FixedU128) (n : Nat) : Nat :=
  min (a.inner * n / FDIV) U128MAX

/-- The exact number of integer gas units obtained by rounding `t` (an inner fixed-point
value) up to the next multiple of `FDIV`: the mathematical ceiling `⌈t / FDIV⌉`. -/
def ceilUnits (t : Nat) : Nat := (t + FDIV - 1) / FDIV

/-- `abi::constants::GAS_USAGE`.  Modelled from the spec: the `abi` module is not under
`src/`; §3 names the pseudo-resource key `"l1_gas_usage"`. -/
def GAS_USAGE : String := "l1_gas_usage"

/-- `ResourcesMapping` (`transaction/objects.rs`): an `IndexMap<String, u64>`, embedded as
an association list with unique keys; values are `u64` counts. -/
abbrev ResourcesMapping : Type := List (String × Nat)

/-- First-match lookup, the map semantics of `IndexMap::get` on unique-key data. -/
def RMlookup : ResourcesMapping → String → Option Nat
  | [], _ => none
  | kv :: rest, k => if kv.1 = k then some kv.2 else RMlookup rest k

/-- `vm_resource_usage.0.get(key).cloned().unwrap_or_default()`. -/
def RMlookupD (r : ResourcesMapping) (k : String) : Nat := (RMlookup r k).getD 0

/-- The keys of a mapping, for well-formedness (`IndexMap` keys are unique). -/
def RMkeys (r : ResourcesMapping) : List String := r.map Prod.fst

/-- `IndexMap::remove(key)`: returns the removed value and the remaining mapping, `none`
when the key is absent.  (`IndexMap`'s `remove` is its swap-remove, which perturbs only
the insertion order of the survivors; the embedding keeps their relative order, which is
indistinguishable under `RMlookup` and under `IndexMap`'s order-insensitive equality.) -/
def RMremove : ResourcesMapping → String → Option (Nat × ResourcesMapping)
  | [], _ => none
  | kv :: rest, k =>
    if kv.1 = k then some (kv.2, rest)
    else match RMremove rest k with
      | none => none
      | some (v, rest2) => some (v, kv :: rest2)

/-- `IndexMap::insert(key, value)`: overwrites in place when the key is present,
appends at the end otherwise. -/
def RMinsert : ResourcesMapping → String → Nat → ResourcesMapping
  | [], k, v => [(k, v)]
  | kv :: rest, k, v =>
    if kv.1 = k then (k, v) :: rest else kv :: RMinsert rest k v

/-- `BlockContext` (`block_context.rs`).  Addresses, hashes and the chain id are opaque
to the claims and embedded as `Nat`/`String`.  The fee-cost table holds the fixed-point
weights that `calculate_l1_gas_by_vm_usage` multiplies with (`vm_resource_fee_cost`);
`fee_utils.rs` consumes them as `FixedU128` values. -/
structure BlockContext where
  chain_id : String
  block_number : Nat
  block_timestamp : Nat
  sequencer_address : Nat
  fee_token_address : Nat
  vm_resource_fee_cost : List (String × FixedU128)
  gas_price : Nat
  invoke_tx_max_n_steps : Nat
  validate_max_n_steps : Nat
  max_recursion_depth : Nat

/-- Membership of a key in the fee-cost table (`HashMap::keys` side of the subset test). -/
def feeCostContains (table : List (String × FixedU128)) (k : String) : Bool :=
  table.any (fun kv => kv.1 = k)

/-- The variants of `TransactionExecutionError` the fee pipeline produces (the enum's
other variants are unreachable from `fee_utils.rs`). -/
inductive TransactionExecutionError where
  | CairoResourcesNotContainedInFeeCosts
  | FixedPointConversion
  deriving DecidableEq, Repr

/-- `extract_l1_gas_and_vm_usage` (`fee_utils.rs`): removes the `GAS_USAGE` key from the
mapping, returning its count and the remaining mapping; the `expect` on a mapping that
lacks the key is a panic (`none`). -/
def extract_l1_gas_and_vm_usage (resources : ResourcesMapping) :
    Option (Nat × ResourcesMapping) :=
  RMremove resources GAS_USAGE

/-- The `map … checked_from_integer … mul … try_fold(zero, max)` loop at the heart of
`calculate_l1_gas_by_vm_usage`, iterating over the fee-cost table:
`checked_from_integer` failure is the `FixedPointConversion` error, multiplication
overflow is a panic (`none`), and the accumulator keeps the running maximum. -/
def vmUsageFold (usage : ResourcesMapping) :
    List (String × FixedU128) → FixedU128 → Option (Except TransactionExecutionError FixedU128)
  | [], acc => some (Except.ok acc)
  | kv :: rest, acc =>
    match FixedU128.checked_from_integer (RMlookupD usage kv.1) with
    | none => some (Except.error TransactionExecutionError.FixedPointConversion)
    | some kru =>
      match FixedU128.mulChecked kru kv.2 with
      | none => none
      | some v => vmUsageFold usage rest (FixedU128.fmax v acc)

/-- `calculate_l1_gas_by_vm_usage` (`fee_utils.rs`): rejects usage keys missing from the
fee-cost table, then folds the weighted usages with `max` from zero. -/
def calculate_l1_gas_by_vm_usage (ctx : BlockContext) (usage : ResourcesMapping) :
    Option (Except TransactionExecutionError FixedU128) :=
  if usage.all (fun kv => feeCostContains ctx.vm_resource_fee_cost kv.1) then
    vmUsageFold usage ctx.vm_resource_fee_cost FixedU128.zero
  else
    some (Except.error TransactionExecutionError.CairoResourcesNotContainedInFeeCosts)

/-- `calculate_tx_fee` (`fee_utils.rs`): extract the direct L1 gas, weigh the VM usage,
add, take the fixed-point ceiling, and multiply by the gas price saturating on overflow.
The returned `Nat` is the inner `u128` of the `Fee`. -/
def calculate_tx_fee (resources : ResourcesMapping) (ctx : BlockContext) :
    Option (Except TransactionExecutionError Nat) :=
  match extract_l1_gas_and_vm_usage resources with
  | none => none
  | some (l1_gas_usage, vm_resources) =>
    match calculate_l1_gas_by_vm_usage ctx vm_resources with
    | none => none
    | some (Except.error e) => some (Except.error e)
    | some (Except.ok l1_gas_by_vm_usage) =>
      match FixedU128.checked_from_integer l1_gas_usage with
      | none => some (Except.error TransactionExecutionError.FixedPointConversion)
      | some l1f =>
        match FixedU128.addChecked l1f l1_gas_by_vm_usage with
        | none => none
        | some total =>
          some (Except.ok ((FixedU128.ceil total).saturating_mul_int ctx.gas_price))

/-- `starknet_api::deprecated_contract_class::EntryPointType`. -/
inductive EntryPointType where
  | Constructor
  | External
  | L1Handler
  deriving DecidableEq, Repr

/-- An entry-point selector (`EntryPointSelector`, a `StarkFelt`), embedded as `Nat`. -/
abbrev Selector : Type := Nat

/-- The STARK field prime bounding every felt (hence every selector). -/
def STARKPRIME : Nat := 3618502788666131213697322783095070105623107215331596699973092056135872020481

/-- `selector_from_name(CONSTRUCTOR_ENTRY_POINT_NAME)`.  Modelled from the spec: the
`abi` module (`selector_from_name`, `CONSTRUCTOR_ENTRY_POINT_NAME`) is not under `src/`;
this is the canonical constructor-function selector, the starknet keccak of
`"constructor"`.  The claims depend only on its identity, never on how it is hashed. -/
def CONSTRUCTOR_SELECTOR : Selector :=
  0x028ffe4ff0f226a9107253e17a904099aa4f63a02a5621de0576e5aa71bc5194

/-- A V0 entry point (`starknet_api::deprecated_contract_class::EntryPoint`). -/
structure EntryPoint where
  selector : Selector
  offset : Nat
  deriving DecidableEq, Repr

/-- `EntryPointV1` (`contract_class.rs`). -/
structure EntryPointV1 where
  selector : Selector
  offset : Nat
  builtins : List String
  deriving DecidableEq, Repr

/-- `HashMap::get` / indexing on an `entry_points_by_type` map, embedded as first-match
lookup in an association list keyed by `EntryPointType`. -/
def lookupByType {α : Type} : List (EntryPointType × α) → EntryPointType → Option α
  | [], _ => none
  | kv :: rest, t => if kv.1 = t then some kv.2 else lookupByType rest t

/-- `CallEntryPoint` (`execution/entry_point.rs`, declared outside `src/`; shape taken
from its uses in `contract_class.rs` and `entry_point_test.rs` and from spec §3: type,
selector, calldata, addresses, initial gas).  Only the first three fields are consulted
by the embedded operations. -/
structure CallEntryPoint where
  entry_point_type : EntryPointType
  entry_point_selector : Selector
  calldata : List Nat
  storage_address : Nat
  caller_address : Nat
  initial_gas : Nat

/-- `Default::default()` for `CallEntryPoint` as used by `entry_point_test.rs`. -/
def CallEntryPoint.default : CallEntryPoint :=
  { entry_point_type := EntryPointType.External
    entry_point_selector := (0 : Nat)
    calldata := []
    storage_address := 0
    caller_address := 0
    initial_gas := 0 }

/-- The variants of `PreExecutionError` produced by `ContractClassV1::get_entry_point`. -/
inductive PreExecutionError where
  | EntryPointNotFound (selector : Selector)
  | DuplicatedEntryPointSelector (selector : Selector) (typ : EntryPointType)
  | InvalidConstructorEntryPointName
  deriving DecidableEq, Repr

/-- `ContractClassV0` (through `ContractClassV0Inner`): the legacy program is external VM
machinery irrelevant to the claims and is elided; the entry-point map is kept. -/
structure ContractClassV0 where
  entry_points_by_type : List (EntryPointType × List EntryPoint)

/-- `ContractClassV1` (through `ContractClassV1Inner`): the synthesized `Program` and the
string-to-hint map are external VM machinery irrelevant to the claims and are elided. -/
structure ContractClassV1 where
  entry_points_by_type : List (EntryPointType × List EntryPointV1)

/-- `ContractClass`: the tagged union of the two variants. -/
inductive ContractClass where
  | V0 (class0 : ContractClassV0)
  | V1 (class1 : ContractClassV1)

/-- `ContractClassV0::constructor_selector`: indexes the map at `Constructor` (a panic
when the key is absent, modelled as the outer `none`), then takes the first entry's
selector if any. -/
def ContractClassV0.constructor_selector (c : ContractClassV0) : Option (Option Selector) :=
  match lookupByType c.entry_points_by_type EntryPointType.Constructor with
  | none => none
  | some eps => some (eps.head?.map EntryPoint.selector)

/-- `ContractClassV1::constructor_selector`: same shape as the V0 one. -/
def ContractClassV1.constructor_selector (c : ContractClassV1) : Option (Option Selector) :=
  match lookupByType c.entry_points_by_type EntryPointType.Constructor with
  | none => none
  | some eps => some (eps.head?.map EntryPointV1.selector)

/-- `ContractClass::constructor_selector`: dispatch on the variant. -/
def ContractClass.constructor_selector : ContractClass → Option (Option Selector)
  | ContractClass.V0 c => c.constructor_selector
  | ContractClass.V1 c => c.constructor_selector

/-- `ContractClassV1::get_entry_point`: the constructor-name guard, then the bucket
lookup (an unchecked index — a panic, modelled as the outer `none`, when the type key is
absent), then the selector filter with the zero/one/many tie-break. -/
def ContractClassV1.get_entry_point (c : ContractClassV1) (call : CallEntryPoint) :
    Option (Except PreExecutionError EntryPointV1) :=
  if call.entry_point_type = EntryPointType.Constructor ∧
      call.entry_point_selector ≠ CONSTRUCTOR_SELECTOR then
    some (Except.error PreExecutionError.InvalidConstructorEntryPointName)
  else
    match lookupByType c.entry_points_by_type call.entry_point_type with
    | none => none
    | some entry_points_of_same_type =>
      match entry_points_of_same_type.filter
          (fun ep => ep.selector = call.entry_point_selector) with
      | [] => some (Except.error (PreExecutionError.EntryPointNotFound call.entry_point_selector))
      | [entry_point] => some (Except.ok entry_point)
      | _ => some (Except.error (PreExecutionError.DuplicatedEntryPointSelector
          call.entry_point_selector call.entry_point_type))

/-- `CasmContractEntryPoint` (from `cairo_lang_casm_contract_class`): selector as an
unbounded integer (`BigUint`), offset, builtin names. -/
structure CasmContractEntryPoint where
  selector : Nat
  offset : Nat
  builtins : List String

/-- The `entry_points_by_type` field of a `CasmContractClass`. -/
structure CasmEntryPointsByType where
  constructor : List CasmContractEntryPoint
  external : List CasmContractEntryPoint
  l1_handler : List CasmContractEntryPoint

/-- `CasmContractClass`, restricted to the fields the conversion reads for the claims:
bytecode values and the three entry-point lists (the per-offset hint lists only feed the
elided `Program`/hint-map construction). -/
structure CasmContractClass where
  bytecode : List Nat
  entry_points_by_type : CasmEntryPointsByType

/-- `convert_entry_points_v1`: maps each Casm entry point to an `EntryPointV1`, suffixing
builtin names with `"_builtin"`; the `Felt252::try_from(selector).unwrap()` panics
(modelled as `none`) for a selector outside the felt range. -/
def convert_entry_points_v1 (external : List CasmContractEntryPoint) :
    Option (List EntryPointV1) :=
  external.mapM (fun ep =>
    if ep.selector < STARKPRIME then
      some { selector := ep.selector
             offset := ep.offset
             builtins := ep.builtins.map (fun builtin => builtin ++ "_builtin") }
    else none)

/-- `TryFrom<CasmContractClass> for ContractClassV1`: build the entry-point map by
inserting all three type keys (the `Program`/hint construction, which only consumes the
bytecode and hints, is elided as external VM machinery). -/
def tryFromCasm (class0 : CasmContractClass) : Option ContractClassV1 :=
  match convert_entry_points_v1 class0.entry_points_by_type.constructor with
  | none => none
  | some ctor =>
    match convert_entry_points_v1 class0.entry_points_by_type.external with
    | none => none
    | some ext =>
      match convert_entry_points_v1 class0.entry_points_by_type.l1_handler with
      | none => none
      | some l1h =>
        some { entry_points_by_type :=
          [(EntryPointType.Constructor, ctor),
           (EntryPointType.External, ext),
           (EntryPointType.L1Handler, l1h)] }

/-- `CallInfo` (`execution/entry_point.rs` / `call_info.rs`, declared outside `src/`).
Modelled from the spec (§3): the originating `CallEntryPoint` plus the ordered sequence
of inner `CallInfo`s; the execution result, resource usage and storage-access records are
payload fields irrelevant to the traversal claims and are elided. -/
inductive CallInfo where
  | mk (call : CallEntryPoint) (inner_calls : List CallInfo)

/-- The originating call of a node. -/
def CallInfo.call : CallInfo → CallEntryPoint
  | CallInfo.mk c _ => c

/-- The ordered inner calls of a node. -/
def CallInfo.inner_calls : CallInfo → List CallInfo
  | CallInfo.mk _ inner => inner

mutual

/-- The spec's traversal order (§3 invariant): "a node before all its descendants,
descendants in call order" — the canonical pre-order listing of the tree. -/
def CallInfo.preorder : CallInfo → List CallInfo
  | CallInfo.mk c inner => CallInfo.mk c inner :: preorderList inner

/-- Pre-order listing of a forest, subtree by subtree in call order. -/
def preorderList : List CallInfo → List CallInfo
  | [] => []
  | t :: ts => t.preorder ++ preorderList ts

end

mutual

/-- Number of nodes of a call tree (termination measure for the iterator). -/
def CallInfo.size : CallInfo → Nat
  | CallInfo.mk _ inner => 1 + sizeList inner

/-- Number of nodes of a forest. -/
def sizeList : List CallInfo → Nat
  | [] => 0
  | t :: ts => t.size + sizeList ts

end

theorem sizeList_append (a b : List CallInfo) :
    sizeList (a ++ b) = sizeList a + sizeList b := by
  induction a with
  | nil => simp [sizeList]
  | cons t ts ih => simp [sizeList, ih]; omega

/-- `CallInfoIter::next`, modelled from the spec's "producible, non-restartable,
depth-first pre-order sequence": the iterator keeps a stack of pending subtrees, pops the
top node, and pushes its inner calls so that the first child is popped next.  The list
argument is the stack, top first. -/
def stackTraverse : List CallInfo → List CallInfo
  | [] => []
  | t :: rest => t :: stackTraverse (t.inner_calls ++ rest)
termination_by l => sizeList l
decreasing_by
  cases t with
  | mk c inner =>
    simp [sizeList_append, sizeList, CallInfo.inner_calls, CallInfo.size]

/-- `CallInfo::into_iter` collected into a list: start the iterator stack at the root. -/
def CallInfo.intoIter (t : CallInfo) : List CallInfo := stackTraverse [t]

/-- The four-node tree of `test_call_info_iteration` (`entry_point_test.rs`): calldata
markers 0, 1, 2, 3 at depths 0, 1, 2, 1. -/
def testLeftLeaf : CallInfo :=
  CallInfo.mk { CallEntryPoint.default with calldata := [2] } []

def testRightLeaf : CallInfo :=
  CallInfo.mk { CallEntryPoint.default with calldata := [3] } []

def testInnerNode : CallInfo :=
  CallInfo.mk { CallEntryPoint.default with calldata := [1] } [testLeftLeaf]

def testRoot : CallInfo :=
  CallInfo.mk { CallEntryPoint.default with calldata := [0] } [testInnerNode, testRightLeaf]

/-! ## Claims C3 and C4: entry-point resolution -/

/-- C3: for every V1 contract class whose bucket for the requested entry-point type
exists, and every non-constructor call, `get_entry_point` returns `EntryPointNotFound`
when zero entry points in that bucket carry the call's selector, the unique matching
entry point when exactly one does, and `DuplicatedEntryPointSelector` when more than one
does — it never silently picks the first match. -/
theorem C3_entry_point_tie_break (c : ContractClassV1) (call : CallEntryPoint)
    (eps : List EntryPointV1)
    (hbucket : lookupByType c.entry_points_by_type call.entry_point_type = some eps)
    (hty : call.entry_point_type ≠ EntryPointType.Constructor) :
    (eps.filter (fun ep => ep.selector = call.entry_point_selector) = [] →
      c.get_entry_point call =
        some (Except.error (PreExecutionError.EntryPointNotFound call.entry_point_selector))) ∧
    (∀ ep, eps.filter (fun ep => ep.selector = call.entry_point_selector) = [ep] →
      c.get_entry_point call = some (Except.ok ep)) ∧
    (2 ≤ (eps.filter (fun ep => ep.selector = call.entry_point_selector)).length →
      c.get_entry_point call =
        some (Except.error (PreExecutionError.DuplicatedEntryPointSelector
          call.entry_point_selector call.entry_point_type))) := by
  have hguard : ¬(call.entry_point_type = EntryPointType.Constructor ∧
      call.entry_point_selector ≠ CONSTRUCTOR_SELECTOR) := fun h => hty h.1
  refine ⟨?_, ?_, ?_⟩
  · intro hf
    simp only [ContractClassV1.get_entry_point, if_neg hguard, hbucket, hf]
  · intro ep hf
    simp only [ContractClassV1.get_entry_point, if_neg hguard, hbucket, hf]
  · intro hlen
    rcases hf : eps.filter (fun ep => ep.selector = call.entry_point_selector) with
      _ | ⟨a, _ | ⟨b, l⟩⟩
    · rw [hf] at hlen; simp at hlen
    · rw [hf] at hlen; simp at hlen
    · simp only [ContractClassV1.get_entry_point, if_neg hguard, hbucket, hf]

/-- The concrete bucket for the C3 witness: selector 5 appears once, selector 9 twice,
selector 7 never. -/
def c3Bucket : List EntryPointV1 :=
  [EntryPointV1.mk 5 10 [], EntryPointV1.mk 9 20 [], EntryPointV1.mk 9 30 []]

/-- The concrete class for the C3 witness. -/
def c3Class : ContractClassV1 :=
  ContractClassV1.mk [(EntryPointType.External, c3Bucket)]

/-- A concrete external call against `c3Class` with the given selector. -/
def c3Call (sel : Selector) : CallEntryPoint :=
  { CallEntryPoint.default with entry_point_selector := sel }

/-- Witness for C3 at a concrete class: selector 5 appears once (resolved), selector 7
never (not found), selector 9 twice (duplicated). -/
theorem C3_entry_point_tie_break_witness :
    c3Class.get_entry_point (c3Call 5) = some (Except.ok (EntryPointV1.mk 5 10 [])) ∧
    c3Class.get_entry_point (c3Call 7) =
      some (Except.error (PreExecutionError.EntryPointNotFound 7)) ∧
    c3Class.get_entry_point (c3Call 9) =
      some (Except.error (PreExecutionError.DuplicatedEntryPointSelector 9
        EntryPointType.External)) := by
  refine ⟨?_, ?_, ?_⟩
  · exact (C3_entry_point_tie_break c3Class (c3Call 5) c3Bucket rfl (by decide)).2.1
      (EntryPointV1.mk 5 10 []) (by decide)
  · exact (C3_entry_point_tie_break c3Class (c3Call 7) c3Bucket rfl (by decide)).1 (by decide)
  · exact (C3_entry_point_tie_break c3Class (c3Call 9) c3Bucket rfl (by decide)).2.2 (by decide)

/-- C4: a constructor-type call whose selector differs from the canonical constructor
selector fails with `InvalidConstructorEntryPointName` before any bucket lookup, whatever
the map contains. -/
theorem C4_invalid_constructor_name (c : ContractClassV1) (call : CallEntryPoint)
    (hty : call.entry_point_type = EntryPointType.Constructor)
    (hsel : call.entry_point_selector ≠ CONSTRUCTOR_SELECTOR) :
    c.get_entry_point call =
      some (Except.error PreExecutionError.InvalidConstructorEntryPointName) := by
  unfold ContractClassV1.get_entry_point
  rw [if_pos ⟨hty, hsel⟩]

/-- Witness for C4 on a class that declares no constructor at all (empty map). -/
theorem C4_invalid_constructor_name_witness :
    (ContractClassV1.mk []).get_entry_point
      { CallEntryPoint.default with
        entry_point_type := EntryPointType.Constructor, entry_point_selector := 7 } =
      some (Except.error PreExecutionError.InvalidConstructorEntryPointName) :=
  C4_invalid_constructor_name _ _ rfl (by decide)

/-! ## Claim C9: `constructor_selector` -/

/-- C9 (amended): for either variant, provided the entry-point map contains the
`Constructor` key, `constructor_selector` returns without panicking `some` of the first
declared constructor's selector, or `none` when the constructor bucket is empty. -/
theorem C9_constructor_selector_total (c0 : ContractClassV0) (c1 : ContractClassV1)
    (eps0 : List EntryPoint) (eps1 : List EntryPointV1)
    (h0 : lookupByType c0.entry_points_by_type EntryPointType.Constructor = some eps0)
    (h1 : lookupByType c1.entry_points_by_type EntryPointType.Constructor = some eps1) :
    ContractClass.constructor_selector (ContractClass.V0 c0) =
      some (eps0.head?.map EntryPoint.selector) ∧
    ContractClass.constructor_selector (ContractClass.V1 c1) =
      some (eps1.head?.map EntryPointV1.selector) := by
  constructor
  · show c0.constructor_selector = _
    unfold ContractClassV0.constructor_selector
    rw [h0]
  · show c1.constructor_selector = _
    unfold ContractClassV1.constructor_selector
    rw [h1]

/-- Witness for C9: a V0 class with a declared constructor yields its selector; a V1
class with an empty constructor bucket yields `None`. -/
theorem C9_constructor_selector_total_witness :
    ContractClass.constructor_selector
        (ContractClass.V0 (ContractClassV0.mk
          [(EntryPointType.Constructor, [EntryPoint.mk 11 0])])) = some (some 11) ∧
    ContractClass.constructor_selector
        (ContractClass.V1 (ContractClassV1.mk [(EntryPointType.Constructor, [])])) =
      some none := by
  have h := C9_constructor_selector_total
    (ContractClassV0.mk [(EntryPointType.Constructor, [EntryPoint.mk 11 0])])
    (ContractClassV1.mk [(EntryPointType.Constructor, [])])
    [EntryPoint.mk 11 0] [] rfl rfl
  exact ⟨h.1, h.2⟩

/-- Counterexample to C9 as stated: a V0 class whose entry-point map lacks the
`Constructor` key altogether declares no constructor, yet `constructor_selector` panics
on the map indexing (the `none` of the embedding) instead of returning `None`. -/
theorem C9_missing_key_counterexample :
    ContractClass.constructor_selector (ContractClass.V0 (ContractClassV0.mk [])) = none :=
  rfl

/-! ## Claim C10: the Casm conversion populates all three buckets -/

/-- C10: every `ContractClassV1` produced by the Casm conversion carries all three
entry-point-type keys, so `get_entry_point`'s unchecked indexing cannot panic on such a
class; on a V1 class whose map lacks the requested type (and whose call does not trip the
constructor guard), `get_entry_point` panics (`none`) instead of returning
`EntryPointNotFound`. -/
theorem C10_casm_buckets_total (casm : CasmContractClass) (v1 : ContractClassV1)
    (h : tryFromCasm casm = some v1) :
    ((lookupByType v1.entry_points_by_type EntryPointType.Constructor).isSome ∧
     (lookupByType v1.entry_points_by_type EntryPointType.External).isSome ∧
     (lookupByType v1.entry_points_by_type EntryPointType.L1Handler).isSome) ∧
    (∀ (c : ContractClassV1) (call : CallEntryPoint),
      lookupByType c.entry_points_by_type call.entry_point_type = none →
      ¬(call.entry_point_type = EntryPointType.Constructor ∧
        call.entry_point_selector ≠ CONSTRUCTOR_SELECTOR) →
      c.get_entry_point call = none) := by
  constructor
  · unfold tryFromCasm at h
    rcases hc : convert_entry_points_v1 casm.entry_points_by_type.constructor with _ | ctor <;>
      rw [hc] at h
    · exact Option.noConfusion h
    rcases he : convert_entry_points_v1 casm.entry_points_by_type.external with _ | ext <;>
      rw [he] at h
    · exact Option.noConfusion h
    rcases hl : convert_entry_points_v1 casm.entry_points_by_type.l1_handler with _ | l1h <;>
      rw [hl] at h
    · exact Option.noConfusion h
    cases h
    exact ⟨rfl, rfl, rfl⟩
  · intro c call hnone hguard
    unfold ContractClassV1.get_entry_point
    rw [if_neg hguard, hnone]

/-- The concrete Casm class for the C10 witness: one external entry point. -/
def c10Casm : CasmContractClass :=
  CasmContractClass.mk [1, 2]
    (CasmEntryPointsByType.mk [] [CasmContractEntryPoint.mk 5 0 ["range_check"]] [])

/-- The class `c10Casm` converts to. -/
def c10V1 : ContractClassV1 :=
  ContractClassV1.mk
    [(EntryPointType.Constructor, []),
     (EntryPointType.External, [EntryPointV1.mk 5 0 ["range_check_builtin"]]),
     (EntryPointType.L1Handler, [])]

/-- A hand-made V1 class whose map lacks the `External` key. -/
def c10Lacking : ContractClassV1 :=
  ContractClassV1.mk [(EntryPointType.Constructor, [])]

/-- Witness for C10: a concrete Casm class with one external entry point converts to a
class holding all three keys; a hand-made V1 class with no `External` key panics on an
external call. -/
theorem C10_casm_buckets_total_witness :
    ((lookupByType c10V1.entry_points_by_type EntryPointType.Constructor).isSome ∧
     (lookupByType c10V1.entry_points_by_type EntryPointType.External).isSome ∧
     (lookupByType c10V1.entry_points_by_type EntryPointType.L1Handler).isSome) ∧
    c10Lacking.get_entry_point
      { CallEntryPoint.default with entry_point_selector := 5 } = none := by
  have h := C10_casm_buckets_total c10Casm c10V1 rfl
  exact ⟨h.1, h.2 c10Lacking
    { CallEntryPoint.default with entry_point_selector := 5 } rfl (by decide)⟩

/-! ## Claim C8: pre-order call-tree traversal -/

theorem preorderList_append (a b : List CallInfo) :
    preorderList (a ++ b) = preorderList a ++ preorderList b := by
  induction a with
  | nil => simp [preorderList]
  | cons t ts ih => simp [preorderList, ih]

/-- The stack-based iterator produces exactly the pre-order listing of the pending
forest. -/
theorem stackTraverse_eq_preorderList (l : List CallInfo) :
    stackTraverse l = preorderList l := by
  induction l using stackTraverse.induct with
  | case1 => rw [stackTraverse]; rfl
  | case2 t rest ih =>
    rw [stackTraverse, ih]
    cases t with
    | mk c inner =>
      simp [CallInfo.inner_calls, preorderList, CallInfo.preorder, preorderList_append]

/-- C8: iterating a `CallInfo` tree yields the depth-first pre-order sequence (a node
before all its descendants, child subtrees in invocation order), and on the test tree of
`test_call_info_iteration` — calldata markers 0, 1, 2, 3 at depths 0, 1, 2, 1 — the
iteration yields exactly the marker sequence 0, 1, 2, 3. -/
theorem C8_preorder_iteration :
    (∀ t : CallInfo, t.intoIter = t.preorder) ∧
    (testRoot.intoIter.map (fun ci => ci.call.calldata)) = [[0], [1], [2], [3]] := by
  have hgen : ∀ t : CallInfo, t.intoIter = t.preorder := by
    intro t
    show stackTraverse [t] = _
    rw [stackTraverse_eq_preorderList]
    cases t with
    | mk c inner => simp [preorderList, CallInfo.preorder]
  refine ⟨hgen, ?_⟩
  rw [hgen testRoot]
  simp [testRoot, testInnerNode, testLeftLeaf, testRightLeaf, CallInfo.preorder,
    preorderList, CallInfo.call]

/-! ## Claims C6 and C7: extracting and re-inserting the L1-gas key -/

theorem RMlookup_eq_none_of_not_mem (r : ResourcesMapping) (k : String)
    (h : k ∉ RMkeys r) : RMlookup r k = none := by
  induction r with
  | nil => rfl
  | cons kv tail ih =>
    simp only [RMkeys, List.map_cons, List.mem_cons, not_or] at h
    simp only [RMlookup]
    rw [if_neg (fun hc => h.1 hc.symm)]
    exact ih (by simpa [RMkeys] using h.2)

theorem RMremove_eq_none_iff (r : ResourcesMapping) (k : String) :
    RMremove r k = none ↔ RMlookup r k = none := by
  induction r with
  | nil => simp [RMremove, RMlookup]
  | cons kv tail ih =>
    simp only [RMremove, RMlookup]
    by_cases hk : kv.1 = k
    · simp [hk]
    · rw [if_neg hk, if_neg hk]
      cases hrem : RMremove tail k with
      | none => simp [ih.mp hrem]
      | some p =>
        constructor
        · intro hcontra; exact absurd hcontra (by simp)
        · intro hcontra
          rw [ih.mpr hcontra] at hrem
          exact Option.noConfusion hrem

theorem RMremove_spec (r : ResourcesMapping) (k : String) (v : Nat)
    (rest : ResourcesMapping) (h : RMremove r k = some (v, rest)) :
    RMlookup r k = some v ∧
    ((RMkeys r).Nodup → RMlookup rest k = none) ∧
    (∀ k2, k2 ≠ k → RMlookup rest k2 = RMlookup r k2) := by
  induction r generalizing v rest with
  | nil => exact Option.noConfusion h
  | cons kv tail ih =>
    simp only [RMremove] at h
    by_cases hk : kv.1 = k
    · rw [if_pos hk] at h
      cases h
      refine ⟨by simp [RMlookup, hk], ?_, ?_⟩
      · intro hnd
        have hnd2 : (kv.1 :: RMkeys tail).Nodup := hnd
        have hnotin : kv.1 ∉ RMkeys tail := (List.nodup_cons.mp hnd2).1
        exact RMlookup_eq_none_of_not_mem tail k (hk ▸ hnotin)
      · intro k2 hk2
        simp [RMlookup, show ¬kv.1 = k2 from fun hc => hk2 ((hk ▸ hc : k = k2)).symm]
    · rw [if_neg hk] at h
      cases hrem : RMremove tail k with
      | none => rw [hrem] at h; exact Option.noConfusion h
      | some p =>
        rcases p with ⟨v2, rest2⟩
        rw [hrem] at h
        rw [Option.some_inj, Prod.mk.injEq] at h
        obtain ⟨hv, hr⟩ := h
        subst hv
        subst hr
        obtain ⟨ih1, ih2, ih3⟩ := ih _ _ hrem
        refine ⟨by simp [RMlookup, hk, ih1], ?_, ?_⟩
        · intro hnd
          have hnd2 : (kv.1 :: RMkeys tail).Nodup := hnd
          simp [RMlookup, hk, ih2 (List.nodup_cons.mp hnd2).2]
        · intro k2 hk2
          by_cases hkv : kv.1 = k2
          · simp [RMlookup, hkv]
          · simp [RMlookup, hkv, ih3 k2 hk2]

/-- C6: `extract_l1_gas_and_vm_usage` panics exactly on mappings lacking the
`l1_gas_usage` key; on a mapping containing it, it returns that key's count together
with the input mapping with exactly that key removed and all other entries unchanged. -/
theorem C6_extract_l1_gas (r : ResourcesMapping) (hnd : (RMkeys r).Nodup) :
    (extract_l1_gas_and_vm_usage r = none ↔ RMlookup r GAS_USAGE = none) ∧
    (∀ v rest, extract_l1_gas_and_vm_usage r = some (v, rest) →
      RMlookup r GAS_USAGE = some v ∧ RMlookup rest GAS_USAGE = none ∧
      (∀ k, k ≠ GAS_USAGE → RMlookup rest k = RMlookup r k)) := by
  constructor
  · exact RMremove_eq_none_iff r GAS_USAGE
  · intro v rest h
    obtain ⟨h1, h2, h3⟩ := RMremove_spec r GAS_USAGE v rest h
    exact ⟨h1, h2 hnd, h3⟩

/-- Witness for C6 at the concrete mapping `{l1_gas_usage: 5, n_steps: 2}` (and the
failure case at the empty mapping). -/
theorem C6_extract_l1_gas_witness :
    RMlookup [(GAS_USAGE, 5), ("n_steps", 2)] GAS_USAGE = some 5 ∧
    RMlookup [("n_steps", 2)] GAS_USAGE = none ∧
    RMlookup [("n_steps", 2)] "n_steps" = RMlookup [(GAS_USAGE, 5), ("n_steps", 2)] "n_steps" ∧
    extract_l1_gas_and_vm_usage ([] : ResourcesMapping) = none := by
  have h := (C6_extract_l1_gas [(GAS_USAGE, 5), ("n_steps", 2)] (by decide)).2
    5 [("n_steps", 2)] rfl
  exact ⟨h.1, h.2.1, h.2.2 "n_steps" (by decide),
    (C6_extract_l1_gas [] (by decide)).1.mpr rfl⟩

theorem RMlookup_insert (rest : ResourcesMapping) (k : String) (v : Nat) (k2 : String) :
    RMlookup (RMinsert rest k v) k2 = if k2 = k then some v else RMlookup rest k2 := by
  induction rest with
  | nil =>
    by_cases hk : k2 = k
    · simp [RMinsert, RMlookup, hk]
    · simp [RMinsert, RMlookup, hk, Ne.symm hk]
  | cons kv tail ih =>
    by_cases hkv : kv.1 = k
    · by_cases hk2 : k2 = k
      · simp [RMinsert, RMlookup, hkv, hk2]
      · simp [RMinsert, RMlookup, hkv, hk2, Ne.symm hk2]
    · by_cases hk2 : k2 = k
      · subst hk2
        simp [RMinsert, RMlookup, hkv, ih]
      · simp [RMinsert, RMlookup, hkv, hk2, ih]

/-- C7: re-inserting the count removed by `extract_l1_gas_and_vm_usage` under its
original key reproduces the original mapping exactly — as a mapping, i.e. under
`IndexMap`'s (order-insensitive) equality of contents. -/
theorem C7_extract_insert_round_trip (r : ResourcesMapping) (v : Nat)
    (rest : ResourcesMapping) (h : extract_l1_gas_and_vm_usage r = some (v, rest)) :
    ∀ k, RMlookup (RMinsert rest GAS_USAGE v) k = RMlookup r k := by
  obtain ⟨h1, _, h3⟩ := RMremove_spec r GAS_USAGE v rest h
  intro k
  rw [RMlookup_insert]
  by_cases hk : k = GAS_USAGE
  · rw [if_pos hk, hk, h1]
  · rw [if_neg hk]
    exact h3 k hk

/-- Witness for C7 at the concrete mapping `{n_steps: 7, l1_gas_usage: 4, pedersen: 9}`. -/
theorem C7_extract_insert_round_trip_witness :
    RMlookup (RMinsert [("n_steps", 7), ("pedersen", 9)] GAS_USAGE 4) "pedersen" =
      RMlookup [("n_steps", 7), (GAS_USAGE, 4), ("pedersen", 9)] "pedersen" ∧
    RMlookup (RMinsert [("n_steps", 7), ("pedersen", 9)] GAS_USAGE 4) GAS_USAGE =
      RMlookup [("n_steps", 7), (GAS_USAGE, 4), ("pedersen", 9)] GAS_USAGE := by
  have h := C7_extract_insert_round_trip
    [("n_steps", 7), (GAS_USAGE, 4), ("pedersen", 9)] 4 [("n_steps", 7), ("pedersen", 9)] rfl
  exact ⟨h "pedersen", h GAS_USAGE⟩

/-! ## Claim C5: unpriced resources are rejected, never priced at zero -/

theorem vmUsageFold_ne_cairo_error (usage : ResourcesMapping)
    (table : List (String × FixedU128)) (acc : FixedU128) :
    vmUsageFold usage table acc ≠
      some (Except.error TransactionExecutionError.CairoResourcesNotContainedInFeeCosts) := by
  induction table generalizing acc with
  | nil => simp [vmUsageFold]
  | cons kv rest ih =>
    rcases hcfi : FixedU128.checked_from_integer (RMlookupD usage kv.1) with _ | kru
    · simp [vmUsageFold, hcfi]
    · rcases hmul : FixedU128.mulChecked kru kv.2 with _ | v
      · simp [vmUsageFold, hcfi, hmul]
      · simp only [vmUsageFold, hcfi, hmul]
        exact ih _

/-- C5: `calculate_l1_gas_by_vm_usage` fails with
`CairoResourcesNotContainedInFeeCosts` if and only if some key of the usage mapping is
absent from the block's fee-cost table — regardless of the usage counts (including 0):
an unpriced resource is never silently priced at zero. -/
theorem C5_missing_key_iff_error (ctx : BlockContext) (usage : ResourcesMapping) :
    calculate_l1_gas_by_vm_usage ctx usage =
        some (Except.error TransactionExecutionError.CairoResourcesNotContainedInFeeCosts) ↔
    ∃ kv ∈ usage, feeCostContains ctx.vm_resource_fee_cost kv.1 = false := by
  cases hall : usage.all (fun kv => feeCostContains ctx.vm_resource_fee_cost kv.1) with
  | true =>
    simp only [calculate_l1_gas_by_vm_usage, hall, if_true]
    constructor
    · intro h
      exact absurd h (vmUsageFold_ne_cairo_error usage _ _)
    · rintro ⟨kv, hmem, hfalse⟩
      have htrue := List.all_eq_true.mp hall kv hmem
      rw [hfalse] at htrue
      exact Bool.noConfusion htrue
  | false =>
    simp only [calculate_l1_gas_by_vm_usage, hall]
    have hex : ∃ kv ∈ usage, feeCostContains ctx.vm_resource_fee_cost kv.1 = false := by
      have hnot : ¬(usage.all (fun kv => feeCostContains ctx.vm_resource_fee_cost kv.1)
          = true) := by simp [hall]
      rw [List.all_eq_true] at hnot
      push_neg at hnot
      rcases hnot with ⟨kv, hmem, hfalse⟩
      exact ⟨kv, hmem, by simpa using hfalse⟩
    simp [hex]

/-! ## Claim C1: the weighted maximum (not the sum) -/

theorem foldr_max_shift (ws : List Nat) (v a : Nat) :
    ws.foldr max (max v a) = max v (ws.foldr max a) := by
  induction ws with
  | nil => rfl
  | cons w ws ih =>
    simp only [List.foldr_cons, ih]
    exact max_left_comm w v _

theorem RMlookup_mem (r : ResourcesMapping) (k : String) (v : Nat)
    (h : RMlookup r k = some v) : (k, v) ∈ r := by
  induction r with
  | nil => exact Option.noConfusion h
  | cons kv tail ih =>
    simp only [RMlookup] at h
    by_cases hk : kv.1 = k
    · rw [if_pos hk] at h
      have hv := Option.some_inj.mp h
      exact List.mem_cons.mpr (Or.inl (by rw [← hk, ← hv]))
    · rw [if_neg hk] at h
      exact List.mem_cons.mpr (Or.inr (ih h))

/-- The weighted fold computes the running maximum of `usage(key) · price` over the
fee-cost table, provided every conversion and multiplication stays within `u128`. -/
theorem vmUsageFold_max (usage : ResourcesMapping)
    (table : List (String × FixedU128)) (acc : FixedU128)
    (hconv : ∀ kv ∈ table, RMlookupD usage kv.1 * FDIV ≤ U128MAX)
    (hrep : ∀ kv ∈ table, RMlookupD usage kv.1 * kv.2.inner ≤ U128MAX) :
    vmUsageFold usage table acc =
      some (Except.ok ⟨(table.map (fun kv => RMlookupD usage kv.1 * kv.2.inner)).foldr
        max acc.inner⟩) := by
  induction table generalizing acc with
  | nil => rfl
  | cons kv rest ih =>
    have hc : FixedU128.checked_from_integer (RMlookupD usage kv.1) =
        some ⟨RMlookupD usage kv.1 * FDIV⟩ := by
      unfold FixedU128.checked_from_integer
      rw [if_pos (hconv kv (List.mem_cons_self kv rest))]
    have hexact : RMlookupD usage kv.1 * FDIV * kv.2.inner / FDIV =
        RMlookupD usage kv.1 * kv.2.inner := by
      rw [Nat.mul_right_comm]
      exact Nat.mul_div_cancel _ (by norm_num [FDIV])
    have hm : FixedU128.mulChecked ⟨RMlookupD usage kv.1 * FDIV⟩ kv.2 =
        some ⟨RMlookupD usage kv.1 * kv.2.inner⟩ := by
      show (if RMlookupD usage kv.1 * FDIV * kv.2.inner / FDIV ≤ U128MAX then
          some (⟨RMlookupD usage kv.1 * FDIV * kv.2.inner / FDIV⟩ : FixedU128) else none) = _
      rw [hexact, if_pos (hrep kv (List.mem_cons_self kv rest))]
    simp only [vmUsageFold, hc, hm]
    rw [ih _ (fun x hx => hconv x (List.mem_cons_of_mem kv hx))
      (fun x hx => hrep x (List.mem_cons_of_mem kv hx))]
    simp only [List.map_cons, List.foldr_cons, FixedU128.fmax]
    rw [foldr_max_shift]

/-- C1 (amended): whenever every usage key is priced in the fee-cost table and every
`usage · price` product is representable in the `u128` fixed point,
`calculate_l1_gas_by_vm_usage` returns the maximum — not the sum — over the fee-cost
table's resources of that resource's usage count multiplied by its configured price.
(Without the representability proviso the multiplication panics; see the
counterexample.) -/
theorem C1_weighted_max (ctx : BlockContext) (usage : ResourcesMapping)
    (hkeys : ∀ kv ∈ usage, feeCostContains ctx.vm_resource_fee_cost kv.1 = true)
    (hvals : ∀ kv ∈ usage, kv.2 < U64SIZE)
    (hrep : ∀ kv ∈ ctx.vm_resource_fee_cost,
      RMlookupD usage kv.1 * kv.2.inner ≤ U128MAX) :
    calculate_l1_gas_by_vm_usage ctx usage =
      some (Except.ok ⟨(ctx.vm_resource_fee_cost.map
        (fun kv => RMlookupD usage kv.1 * kv.2.inner)).foldr max 0⟩) := by
  have hconv : ∀ kv ∈ ctx.vm_resource_fee_cost,
      RMlookupD usage kv.1 * FDIV ≤ U128MAX := by
    intro kv _
    rcases hlk : RMlookup usage kv.1 with _ | v
    · simp [RMlookupD, hlk, FDIV, U128MAX]
    · have hv := hvals (kv.1, v) (RMlookup_mem usage kv.1 v hlk)
      simp only [RMlookupD, hlk, Option.getD_some]
      calc v * FDIV ≤ U64SIZE * FDIV := Nat.mul_le_mul_right _ (le_of_lt hv)
        _ ≤ U128MAX := by norm_num [U64SIZE, FDIV, U128MAX]
  unfold calculate_l1_gas_by_vm_usage
  rw [if_pos (List.all_eq_true.mpr hkeys)]
  exact vmUsageFold_max usage ctx.vm_resource_fee_cost FixedU128.zero hconv hrep

/-- The block context of the C1 witness: prices 0.02 (steps) and 0.01 (pedersen), the
spec's own worked example. -/
def c1Ctx : BlockContext :=
  { chain_id := "SN_GOERLI", block_number := 1, block_timestamp := 0,
    sequencer_address := 0, fee_token_address := 0,
    vm_resource_fee_cost :=
      [("n_steps", ⟨20000000000000000⟩), ("pedersen_builtin", ⟨10000000000000000⟩)],
    gas_price := 10, invoke_tx_max_n_steps := 1000000, validate_max_n_steps := 1000000,
    max_recursion_depth := 50 }

/-- Witness for C1: usage {n_steps: 5000, pedersen: 200} weighs to 100.0 and 2.0 gas;
the result is the maximum 100.0 (inner `100 · 10^18`), not the sum 102.0. -/
theorem C1_weighted_max_witness :
    calculate_l1_gas_by_vm_usage c1Ctx [("n_steps", 5000), ("pedersen_builtin", 200)] =
      some (Except.ok ⟨100000000000000000000⟩) := by
  have h := C1_weighted_max c1Ctx [("n_steps", 5000), ("pedersen_builtin", 200)]
    (by decide) (by decide) (by decide)
  exact h.trans (by rfl)

/-- Counterexample to C1 as universally stated: every usage key is priced, yet a
`u64`-maximal usage count times a large fixed-point price overflows the `u128`
fixed-point multiplication and the code panics (`none`) instead of returning the
weighted maximum. -/
theorem C1_overflow_counterexample :
    (∀ kv ∈ ([("n_steps", U64SIZE - 1)] : ResourcesMapping),
      feeCostContains [("n_steps", (⟨U128MAX⟩ : FixedU128))] kv.1 = true) ∧
    calculate_l1_gas_by_vm_usage
      { chain_id := "", block_number := 0, block_timestamp := 0, sequencer_address := 0,
        fee_token_address := 0, vm_resource_fee_cost := [("n_steps", ⟨U128MAX⟩)],
        gas_price := 1, invoke_tx_max_n_steps := 0, validate_max_n_steps := 0,
        max_recursion_depth := 0 } [("n_steps", U64SIZE - 1)] = none := by
  exact ⟨by decide, rfl⟩

/-! ## Claim C2: the fee rounds the gas total up -/

/-- Away from the saturation boundary (or on integral values), the fixed-point ceiling
is the mathematical ceiling `ceilUnits`. -/
theorem ceil_eq_ceilUnits (t : Nat) (hnext : t + FDIV ≤ U128MAX ∨ t % FDIV = 0) :
    FixedU128.ceil ⟨t⟩ = ⟨ceilUnits t * FDIV⟩ := by
  unfold FixedU128.ceil ceilUnits
  by_cases hz : t % FDIV = 0
  · rw [if_pos hz]
    congr 1
    simp only [FDIV] at hz ⊢
    omega
  · rw [if_neg hz]
    have hle : min (t + FDIV) U128MAX = t + FDIV :=
      Nat.min_eq_left (hnext.resolve_right hz)
    rw [hle]
    refine congrArg FixedU128.mk ?_
    simp only [FDIV] at hz ⊢
    omega

/-- `saturating_mul_int` is exact on whole numbers of gas units. -/
theorem saturating_mul_int_of_units (g p : Nat) :
    (FixedU128.mk (g * FDIV)).saturating_mul_int p = min (g * p) U128MAX := by
  unfold FixedU128.saturating_mul_int
  congr 1
  rw [Nat.mul_right_comm]
  exact Nat.mul_div_cancel _ (by norm_num [FDIV])

/-- C2 (amended): on a mapping containing the `l1_gas_usage` key, when the weighted-max
computation succeeds and the rounded-up total stays within the `u128` fixed-point range,
`calculate_tx_fee` charges `(l1_gas_usage + weighted max)` rounded up to the next integer
gas unit (never down: a fractional total strictly between `N` and `N + 1` is charged as
`N + 1` units), multiplied by the block's gas price with saturating multiplication.
(At the very top of the fixed-point range the ceiling saturates and can round down; see
the counterexample.) -/
theorem C2_fee_rounds_up (resources : ResourcesMapping) (ctx : BlockContext)
    (l1_gas : Nat) (vm : ResourcesMapping) (m : FixedU128)
    (hx : extract_l1_gas_and_vm_usage resources = some (l1_gas, vm))
    (hm : calculate_l1_gas_by_vm_usage ctx vm = some (Except.ok m))
    (hl1 : l1_gas * FDIV ≤ U128MAX)
    (hadd : l1_gas * FDIV + m.inner ≤ U128MAX)
    (hnext : l1_gas * FDIV + m.inner + FDIV ≤ U128MAX ∨
      (l1_gas * FDIV + m.inner) % FDIV = 0) :
    calculate_tx_fee resources ctx =
      some (Except.ok (min (ceilUnits (l1_gas * FDIV + m.inner) * ctx.gas_price) U128MAX)) ∧
    (∀ N : Nat, N * FDIV < l1_gas * FDIV + m.inner →
      l1_gas * FDIV + m.inner < (N + 1) * FDIV →
      ceilUnits (l1_gas * FDIV + m.inner) = N + 1) := by
  have hcfi : FixedU128.checked_from_integer l1_gas = some ⟨l1_gas * FDIV⟩ := by
    unfold FixedU128.checked_from_integer
    rw [if_pos hl1]
  have haddeq : FixedU128.addChecked ⟨l1_gas * FDIV⟩ m =
      some ⟨l1_gas * FDIV + m.inner⟩ := by
    show (if l1_gas * FDIV + m.inner ≤ U128MAX then
        some (⟨l1_gas * FDIV + m.inner⟩ : FixedU128) else none) = _
    rw [if_pos hadd]
  constructor
  · simp only [calculate_tx_fee, hx, hm, hcfi, haddeq]
    rw [ceil_eq_ceilUnits _ (by omega), saturating_mul_int_of_units]
  · intro N h1 h2
    simp only [ceilUnits, FDIV] at h1 h2 ⊢
    omega

/-- The block context of the C2 witness: one resource priced 0.5, gas price 100. -/
def c2Ctx : BlockContext :=
  { chain_id := "SN_GOERLI", block_number := 1, block_timestamp := 0,
    sequencer_address := 0, fee_token_address := 0,
    vm_resource_fee_cost := [("n_steps", ⟨500000000000000000⟩)],
    gas_price := 100, invoke_tx_max_n_steps := 1000000, validate_max_n_steps := 1000000,
    max_recursion_depth := 50 }

/-- Witness for C2: usage {l1_gas_usage: 3, n_steps: 5} weighs to a total of 5.5 gas,
charged as 6 gas units, so the fee is 600 wei at gas price 100. -/
theorem C2_fee_rounds_up_witness :
    calculate_tx_fee [(GAS_USAGE, 3), ("n_steps", 5)] c2Ctx = some (Except.ok 600) := by
  have h := C2_fee_rounds_up [(GAS_USAGE, 3), ("n_steps", 5)] c2Ctx 3 [("n_steps", 5)]
    ⟨2500000000000000000⟩ rfl rfl (by decide) (by decide) (Or.inl (by decide))
  exact h.1.trans (by rfl)

/-- Counterexample to C2 as stated: at the top of the `u128` fixed-point range the
ceiling saturates before truncating and rounds DOWN.  With a weighted max of inner value
`340282366920938463463·10^18 + 5` (a total strictly between `N = 340282366920938463463`
and `N + 1`), zero direct L1 gas and gas price 1, the code charges `N` gas units — the
claim demands `N + 1`. -/
theorem C2_ceiling_saturation_counterexample :
    calculate_l1_gas_by_vm_usage
        { chain_id := "", block_number := 0, block_timestamp := 0, sequencer_address := 0,
          fee_token_address := 0,
          vm_resource_fee_cost := [("n_steps", ⟨340282366920938463463000000000000000005⟩)],
          gas_price := 1, invoke_tx_max_n_steps := 0, validate_max_n_steps := 0,
          max_recursion_depth := 0 } [("n_steps", 1)] =
      some (Except.ok ⟨340282366920938463463000000000000000005⟩) ∧
    340282366920938463463 * FDIV < 340282366920938463463000000000000000005 ∧
    340282366920938463463000000000000000005 < (340282366920938463463 + 1) * FDIV ∧
    calculate_tx_fee [(GAS_USAGE, 0), ("n_steps", 1)]
        { chain_id := "", block_number := 0, block_timestamp := 0, sequencer_address := 0,
          fee_token_address := 0,
          vm_resource_fee_cost := [("n_steps", ⟨340282366920938463463000000000000000005⟩)],
          gas_price := 1, invoke_tx_max_n_steps := 0, validate_max_n_steps := 0,
          max_recursion_depth := 0 } =
      some (Except.ok 340282366920938463463) := by
  exact ⟨rfl, by decide, by decide, rfl⟩
